import Mathlib

/-!
Verification of the DuckDocs command-line script
(src/DuckDocs/Resources/deepseek_ocr.py).

The script is a thin wrapper: it parses arguments, optionally checks that
two third-party packages are importable, validates that the image path
exists, calls an external model-loading / image-opening / text-generation
API, and prints the result either as raw text or wrapped in a JSON
envelope.

We embed the script shallowly:
  - Json models the dictionaries passed to json.dumps in the script;
    dumps mirrors json.dumps with its default separators.
  - World models the external environment: which packages are importable,
    which files exist, and the behaviour of the load / open / generate
    library calls (each may fail with an exception message).
  - Event is a trace of the externally visible calls the script performs;
    it lets us state that a stage was or was not reached and with which
    arguments the generation call was invoked.
  - analyzeImage embeds analyze_image, run embeds the body of main after
    argument parsing, parseArgs embeds the argparse surface (the flags
    declared in main, with image required and max-tokens defaulting
    to 2048), and mainRun composes them.
-/

namespace DeepseekOcr

/-- JSON values, as produced by the dictionaries the script passes to
json.dumps: strings, arrays of values, and objects with ordered fields. -/
inductive Json where
| str (s : String)
| arr (xs : List Json)
| obj (fields : List (String × Json))

/-- Escape one character the way json.dumps escapes characters inside a
string literal (the characters actually occurring in the script's output
are covered; other printable characters pass through unchanged). -/
def escapeChar (c : Char) : String :=
  if c = '"' then "\\\""
  else if c = '\\' then "\\\\"
  else if c = '\n' then "\\n"
  else if c = '\r' then "\\r"
  else if c = '\t' then "\\t"
  else String.singleton c

/-- Escape a list of characters for inclusion in a JSON string literal. -/
def escapeList : List Char → String
| [] => ""
| c :: cs => escapeChar c ++ escapeList cs

/-- Escape a string for inclusion in a JSON string literal. -/
def escape (s : String) : String :=
  escapeList s.data

/-- Render a JSON string literal, quotes included. -/
def strLit (s : String) : String :=
  "\"" ++ escape s ++ "\""

mutual

/-- Serialization mirroring json.dumps with Python's default separators:
a comma and a space between items, a colon and a space after a key. -/
def dumps : Json → String
| .str s => strLit s
| .arr xs => "[" ++ dumpsList xs ++ "]"
| .obj fs => "\x7b" ++ dumpsFields fs ++ "\x7d"

/-- Serialize the elements of a JSON array, comma-space separated. -/
def dumpsList : List Json → String
| [] => ""
| [x] => dumps x
| x :: y :: xs => dumps x ++ ", " ++ dumpsList (y :: xs)

/-- Serialize the fields of a JSON object, comma-space separated. -/
def dumpsFields : List (String × Json) → String
| [] => ""
| [(k, v)] => strLit k ++ ": " ++ dumps v
| (k, v) :: f :: fs => strLit k ++ ": " ++ dumps v ++ ", " ++ dumpsFields (f :: fs)

end

/-- Does a JSON value have a top-level field with the given key?
True only for objects containing the key. -/
def hasKey : Json → String → Bool
| .obj fs, k => fs.any (fun f => f.1 == k)
| _, _ => false

/-- Look up the value under a top-level key of a JSON object. -/
def jLookup : Json → String → Option Json
| .obj fs, k => (fs.find? (fun f => f.1 == k)).map (fun f => f.2)
| _, _ => none

/-- One value printed to standard output: either a raw string (the plain,
non-JSON print of the analyzer result) or a JSON value printed through
json.dumps. -/
inductive Printed where
| raw (s : String)
| json (j : Json)

/-- The text a printed value puts on standard output (before the
terminating newline that print appends). -/
def renderedLine : Printed → String
| .raw s => s
| .json j => dumps j

/-- Externally visible steps the script performs, in order: the dependency
check, the file-existence check, and the three library calls made by
analyze_image. The genCall event records the prompt and max-tokens
arguments forwarded to the generation call. -/
inductive Event where
| depCheck
| fileCheck
| loadModel (modelId : String)
| openImage (path : String)
| genCall (prompt : String) (maxTokens : Int)
deriving DecidableEq, Repr

/-- The external environment of one invocation: whether the two required
packages are importable, which paths exist on the filesystem, and the
behaviour of the three external library calls. Each call either succeeds
or fails with an exception message; the model handle and the image handle
are opaque to the script, so they are elided. -/
structure World where
  mlxInstalled : Bool
  pilInstalled : Bool
  fileExists : String → Bool
  load : String → Except String Unit
  openImage : String → Except String Unit
  generate : String → Int → Except String String

/-- Join a list of strings with a single space between consecutive
elements, as the join call in check_dependencies does. -/
def joinSpace : List String → String
| [] => ""
| [x] => x
| x :: y :: xs => x ++ " " ++ joinSpace (y :: xs)

/-- The packages check_dependencies finds missing, in the order the
script probes them: mlx-lm first, then pillow. -/
def missingPackages (w : World) : List String :=
  (if w.mlxInstalled then [] else ["mlx-lm"])
    ++ (if w.pilInstalled then [] else ["pillow"])

/-- The object check_dependencies prints when packages are missing. -/
def missingDepsJson (missing : List String) : Json :=
  .obj [("error", .str "missing_dependencies"),
        ("packages", .arr (missing.map .str)),
        ("install_command", .str ("pip install " ++ joinSpace missing))]

/-- The object main prints when the image path does not exist. -/
def fileNotFoundJson (path : String) : Json :=
  .obj [("error", .str "file_not_found"), ("path", .str path)]

/-- The hardcoded model identifier resolved by analyze_image. -/
def modelId : String := "mlx-community/DeepSeek-OCR-2-4bit"

/-- The default prompt analyze_image uses when the caller supplies none. -/
def defaultPrompt : String :=
  "Analyze this UI screenshot and generate markdown documentation.\n\nDescribe:\n1. What UI elements are visible (buttons, menus, text fields, etc.)\n2. The current state of the interface\n3. Any text content visible\n4. The layout and organization\n\nFormat your response as clean markdown suitable for documentation."

/-- Embedding of analyze_image: pick the default prompt when none is
supplied, load the model, open the image, call generate. Each failing
library call is caught and converted into the json.dumps of a tagged
error object, returned on the same string channel as a success. The
second component is the trace of library calls performed. -/
def analyzeImage (w : World) (imagePath : String) (prompt? : Option String)
    (maxTokens : Int) : String × List Event :=
  let prompt := prompt?.getD defaultPrompt
  match w.load modelId with
  | .error e =>
      (dumps (.obj [("error", .str "model_load_failed"),
                    ("message", .str e),
                    ("model", .str modelId)]),
       [.loadModel modelId])
  | .ok _ =>
      match w.openImage imagePath with
      | .error e =>
          (dumps (.obj [("error", .str "image_load_failed"),
                        ("message", .str e),
                        ("path", .str imagePath)]),
           [.loadModel modelId, .openImage imagePath])
      | .ok _ =>
          match w.generate prompt maxTokens with
          | .error e =>
              (dumps (.obj [("error", .str "generation_failed"),
                            ("message", .str e)]),
               [.loadModel modelId, .openImage imagePath,
                .genCall prompt maxTokens])
          | .ok response =>
              (response,
               [.loadModel modelId, .openImage imagePath,
                .genCall prompt maxTokens])

/-- Arguments of one invocation after successful parsing: the argparse
namespace main builds. -/
structure Args where
  image : String
  prompt : Option String
  maxTokens : Int
  checkDeps : Bool
  jsonMode : Bool
deriving DecidableEq, Repr

/-- The observable outcome of one invocation: the values printed to
standard output in order, the process exit status, and the trace of
externally visible steps. -/
structure Outcome where
  stdout : List Printed
  exitCode : Nat
  events : List Event

/-- Embedding of the body of main after argument parsing. Mirrors the
script's control flow: when check-deps is requested, run the dependency
check and exit (1 with the missing-dependencies object, or 0 after
printing the status-ok object) without touching the filesystem; otherwise
check that the image exists (exit 1 with file_not_found if not), run the
dependency check (exit 1 with the missing-dependencies object if it
fails), then analyze the image and print the result, raw or wrapped in a
result envelope depending on the json flag, exiting 0. -/
def run (args : Args) (w : World) : Outcome :=
  if args.checkDeps then
    if missingPackages w = [] then
      { stdout := [.json (.obj [("status", .str "ok")])],
        exitCode := 0,
        events := [.depCheck] }
    else
      { stdout := [.json (missingDepsJson (missingPackages w))],
        exitCode := 1,
        events := [.depCheck] }
  else if w.fileExists args.image = false then
    { stdout := [.json (fileNotFoundJson args.image)],
      exitCode := 1,
      events := [.fileCheck] }
  else if missingPackages w = [] then
    let res := analyzeImage w args.image args.prompt args.maxTokens
    { stdout := [if args.jsonMode then
                   .json (.obj [("result", .str res.1)])
                 else
                   .raw res.1],
      exitCode := 0,
      events := [.fileCheck, .depCheck] ++ res.2 }
  else
    { stdout := [.json (missingDepsJson (missingPackages w))],
      exitCode := 1,
      events := [.fileCheck, .depCheck] }

/-- Reasons argument parsing rejects a command line, mirroring the
argparse error cases relevant to this script: an unrecognized argument,
an option that expects a value given none, a non-integer max-tokens
value, and the required image option missing. -/
inductive ParseError where
| unknownArg (a : String)
| missingValue (a : String)
| badInt (a : String)
| missingRequired
deriving DecidableEq, Repr

/-- The numeric value of a decimal digit character, none otherwise. -/
def digitChar? (c : Char) : Option Nat :=
  if '0' ≤ c ∧ c ≤ '9' then some (c.toNat - 48) else none

/-- Read a nonempty all-digit character list as a natural number. -/
def natOfDigits : List Char → Nat → Option Nat
| [], acc => some acc
| c :: cs, acc =>
  match digitChar? c with
  | none => none
  | some d => natOfDigits cs (10 * acc + d)

/-- Embedding of the int conversion argparse applies to the max-tokens
value: an optional minus sign followed by at least one decimal digit
(the plain decimal forms relevant to this interface). -/
def strToInt? (s : String) : Option Int :=
  match s.data with
  | [] => none
  | '-' :: [] => none
  | '-' :: c :: cs => (natOfDigits (c :: cs) 0).map (fun n => -(n : Int))
  | cs => (natOfDigits cs 0).map (fun n => (n : Int))

/-- Partially built argument namespace while scanning the command line;
max-tokens starts at its declared default 2048. -/
structure ArgsAcc where
  image : Option String
  prompt : Option String
  maxTokens : Int
  checkDeps : Bool
  jsonMode : Bool
deriving DecidableEq, Repr

/-- The accumulator before any token is consumed. -/
def initAcc : ArgsAcc :=
  { image := none, prompt := none, maxTokens := 2048,
    checkDeps := false, jsonMode := false }

/-- Scan the command-line tokens, mirroring the options main declares:
the image, prompt and max-tokens options (long and short forms) consume
the following token as their value, check-deps and json are flags, and
anything else is rejected. -/
def parseTokens : ArgsAcc → List String → Except ParseError ArgsAcc
| acc, [] => .ok acc
| acc, a :: rest =>
  if a = "--image" ∨ a = "-i" then
    match rest with
    | [] => .error (.missingValue a)
    | v :: rest2 => parseTokens { acc with image := some v } rest2
  else if a = "--prompt" ∨ a = "-p" then
    match rest with
    | [] => .error (.missingValue a)
    | v :: rest2 => parseTokens { acc with prompt := some v } rest2
  else if a = "--max-tokens" ∨ a = "-t" then
    match rest with
    | [] => .error (.missingValue a)
    | v :: rest2 =>
        match strToInt? v with
        | none => .error (.badInt v)
        | some n => parseTokens { acc with maxTokens := n } rest2
  else if a = "--check-deps" then
    parseTokens { acc with checkDeps := true } rest
  else if a = "--json" then
    parseTokens { acc with jsonMode := true } rest
  else
    .error (.unknownArg a)

/-- Parse a full command line: scan the tokens, then enforce that the
required image option was supplied. -/
def parseArgs (argv : List String) : Except ParseError Args :=
  match parseTokens initAcc argv with
  | .error e => .error e
  | .ok acc =>
      match acc.image with
      | none => .error .missingRequired
      | some img =>
          .ok { image := img, prompt := acc.prompt,
                maxTokens := acc.maxTokens, checkDeps := acc.checkDeps,
                jsonMode := acc.jsonMode }

/-- A whole invocation from the command line: argparse rejection prints
its usage message to standard error (nothing on standard output) and
exits with status 2 before any stage of the script body runs; otherwise
the parsed arguments drive the script body. -/
def mainRun (argv : List String) (w : World) : Outcome :=
  match parseArgs argv with
  | .error _ => { stdout := [], exitCode := 2, events := [] }
  | .ok args => run args w

/-! Concrete environments used to instantiate the theorems below. -/

/-- Both packages importable, every path exists, all library calls
succeed with a fixed generated text. -/
def wOk : World :=
  { mlxInstalled := true, pilInstalled := true, fileExists := fun _ => true,
    load := fun _ => .ok (), openImage := fun _ => .ok (),
    generate := fun _ _ => .ok "## Title\n- item" }

/-- Both packages importable, all library calls succeed, but no path
exists on the filesystem. -/
def wNoFile : World :=
  { mlxInstalled := true, pilInstalled := true, fileExists := fun _ => false,
    load := fun _ => .ok (), openImage := fun _ => .ok (),
    generate := fun _ _ => .ok "## Title\n- item" }

/-- The mlx-lm package is not importable; everything else succeeds. -/
def wNoMlx : World :=
  { mlxInstalled := false, pilInstalled := true, fileExists := fun _ => true,
    load := fun _ => .error "No module named mlx_lm",
    openImage := fun _ => .ok (),
    generate := fun _ _ => .ok "## Title\n- item" }

/-- Both packages importable and the path exists, but loading the model
raises an exception with message boom. -/
def wLoadFail : World :=
  { mlxInstalled := true, pilInstalled := true, fileExists := fun _ => true,
    load := fun _ => .error "boom", openImage := fun _ => .ok (),
    generate := fun _ _ => .ok "## Title\n- item" }

/-- An invocation of shot.png with every option left at its default. -/
def argsPlain : Args :=
  { image := "shot.png", prompt := none, maxTokens := 2048,
    checkDeps := false, jsonMode := false }

/-! Claim C1. -/

/-- The property claim C1 states: with the json flag set, every
invocation prints a single JSON value that is an object with a top-level
result key, and the value under result is exactly the text the same
invocation would print without the json flag. -/
def jsonAlwaysResultEnvelope : Prop :=
  ∀ (args : Args) (w : World), args.jsonMode = true →
    ∃ (j : Json) (v : Printed),
      (run args w).stdout = [Printed.json j] ∧
      (run { args with jsonMode := false } w).stdout = [v] ∧
      hasKey j "result" = true ∧
      jLookup j "result" = some (.str (renderedLine v))

/-- An invocation of a nonexistent path with the json flag set. -/
def argsMissingJson : Args :=
  { image := "missing.png", prompt := none, maxTokens := 2048,
    checkDeps := false, jsonMode := true }

/-- C1 as stated is false: invoking with the json flag on a nonexistent
image path prints the bare file_not_found object, which has no top-level
result key. -/
theorem json_envelope_not_universal : ¬ jsonAlwaysResultEnvelope := by
  intro h
  obtain ⟨j, v, hj, hv, hk, hl⟩ := h argsMissingJson wNoFile rfl
  have hrun : (run argsMissingJson wNoFile).stdout =
      [Printed.json (fileNotFoundJson "missing.png")] := rfl
  rw [hrun] at hj
  have hjj : Printed.json (fileNotFoundJson "missing.png") = Printed.json j := by
    injection hj
  have hje : fileNotFoundJson "missing.png" = j := by
    injection hjj
  rw [← hje] at hk
  have : hasKey (fileNotFoundJson "missing.png") "result" = false := rfl
  rw [this] at hk
  exact Bool.false_ne_true hk

/-- How the json flag transforms one printed value: the raw analyzer
text is wrapped in a result envelope, while a value that is already a
JSON object is printed unchanged. -/
def wrapResult : Printed → Printed
| .raw r => .json (.obj [("result", .str r)])
| .json j => .json j

/-- C1 amended: with the json flag set, the output is the output of the
same invocation without the flag with the raw analyzer text wrapped as
an object with a single result key; values printed on the check-deps,
missing-dependencies and file-not-found paths are already bare JSON
objects and are printed identically in both modes, so only the analyzer
path gains a result envelope. -/
theorem json_mode_wraps_plain_output (args : Args) (w : World) :
    (run { args with jsonMode := true } w).stdout =
      ((run { args with jsonMode := false } w).stdout).map wrapResult := by
  cases hc : args.checkDeps
  · cases hf : w.fileExists args.image
    · simp [run, hc, hf, wrapResult]
    · by_cases hd : missingPackages w = []
      · simp [run, hc, hf, hd, wrapResult]
      · simp [run, hc, hf, hd, wrapResult]
  · by_cases hd : missingPackages w = []
    · simp [run, hc, hd, wrapResult]
    · simp [run, hc, hd, wrapResult]

/-! Claim C2. -/

/-- C2: on an invocation that reaches the analyzer (no check-deps flag,
the image path exists, both packages importable) the process exits with
status 0, and whichever of the three library calls fails first makes the
analyzer return the serialized error object tagged model_load_failed
(with the message and the model id), image_load_failed (with the message
and the path), or generation_failed (with the message), instead of
raising. -/
theorem analyzer_failures_are_values (args : Args) (w : World)
    (hc : args.checkDeps = false)
    (hf : w.fileExists args.image = true)
    (hd : missingPackages w = []) :
    (run args w).exitCode = 0 ∧
    (∀ e, w.load modelId = .error e →
      (analyzeImage w args.image args.prompt args.maxTokens).1 =
        dumps (.obj [("error", .str "model_load_failed"),
                     ("message", .str e),
                     ("model", .str modelId)])) ∧
    (∀ e, w.load modelId = .ok () → w.openImage args.image = .error e →
      (analyzeImage w args.image args.prompt args.maxTokens).1 =
        dumps (.obj [("error", .str "image_load_failed"),
                     ("message", .str e),
                     ("path", .str args.image)])) ∧
    (∀ e, w.load modelId = .ok () → w.openImage args.image = .ok () →
      w.generate (args.prompt.getD defaultPrompt) args.maxTokens = .error e →
      (analyzeImage w args.image args.prompt args.maxTokens).1 =
        dumps (.obj [("error", .str "generation_failed"),
                     ("message", .str e)])) := by
  refine ⟨?_, ?_, ?_, ?_⟩
  · simp [run, hc, hf, hd]
  · intro e he
    simp [analyzeImage, he]
  · intro e hl he
    simp [analyzeImage, hl, he]
  · intro e hl ho he
    simp [analyzeImage, hl, ho, he]

/-- Witness for C2: with the model load failing with message boom, the
plain invocation of shot.png exits 0 and the analyzer returns the
serialized model_load_failed object. -/
theorem analyzer_failures_are_values_witness :
    (run argsPlain wLoadFail).exitCode = 0 ∧
    (analyzeImage wLoadFail "shot.png" none 2048).1 =
      dumps (.obj [("error", .str "model_load_failed"),
                   ("message", .str "boom"),
                   ("model", .str modelId)]) := by
  have h := analyzer_failures_are_values argsPlain wLoadFail rfl rfl rfl
  exact ⟨h.1, h.2.1 "boom" rfl⟩

/-! Claim C3. -/

/-- C3: without the check-deps flag, an invocation whose image path does
not exist prints exactly the JSON object with error field file_not_found
and path field the supplied path, exits with status 1, and performs only
the file-existence check: the dependency check and the analyzer are
never reached. -/
theorem missing_file_exits_one (args : Args) (w : World)
    (hc : args.checkDeps = false)
    (hf : w.fileExists args.image = false) :
    run args w =
      { stdout := [.json (.obj [("error", .str "file_not_found"),
                                ("path", .str args.image)])],
        exitCode := 1,
        events := [.fileCheck] } := by
  simp [run, hc, hf, fileNotFoundJson]

/-- An invocation of a nonexistent path in plain output mode. -/
def argsMissingPlain : Args :=
  { image := "missing.png", prompt := none, maxTokens := 2048,
    checkDeps := false, jsonMode := false }

/-- Witness for C3: invoking on missing.png with no file present prints
the file_not_found object for missing.png and exits 1. -/
theorem missing_file_exits_one_witness :
    run argsMissingPlain wNoFile =
      { stdout := [.json (.obj [("error", .str "file_not_found"),
                                ("path", .str "missing.png")])],
        exitCode := 1,
        events := [.fileCheck] } :=
  missing_file_exits_one argsMissingPlain wNoFile rfl rfl

/-! Claim C4. -/

/-- C4: whenever the dependency check runs (the check-deps flag is set,
or the image path exists so the pre-analysis check is reached) and at
least one required package is missing, the process prints the JSON
object with error missing_dependencies, the list of exactly the missing
package names, and the install command string pip install followed by
those names, and exits with status 1. -/
theorem missing_deps_report (args : Args) (w : World)
    (hd : missingPackages w ≠ [])
    (hr : args.checkDeps = true ∨ w.fileExists args.image = true) :
    (run args w).stdout =
      [.json (.obj [("error", .str "missing_dependencies"),
                    ("packages", .arr ((missingPackages w).map .str)),
                    ("install_command",
                     .str ("pip install " ++ joinSpace (missingPackages w)))])] ∧
    (run args w).exitCode = 1 := by
  rcases hr with hr | hr
  · constructor <;> simp [run, hr, hd, missingDepsJson]
  · cases hc : args.checkDeps
    · constructor <;> simp [run, hc, hr, hd, missingDepsJson]
    · constructor <;> simp [run, hc, hd, missingDepsJson]

/-- An invocation running only the dependency check. -/
def argsCheckOnly : Args :=
  { image := "shot.png", prompt := none, maxTokens := 2048,
    checkDeps := true, jsonMode := false }

/-- Witness for C4: with mlx-lm missing, the check-deps invocation
prints the missing_dependencies object naming mlx-lm with install
command pip install mlx-lm, and exits 1. -/
theorem missing_deps_report_witness :
    (run argsCheckOnly wNoMlx).stdout =
      [.json (.obj [("error", .str "missing_dependencies"),
                    ("packages", .arr [.str "mlx-lm"]),
                    ("install_command", .str "pip install mlx-lm")])] ∧
    (run argsCheckOnly wNoMlx).exitCode = 1 := by
  have h := missing_deps_report argsCheckOnly wNoMlx (by decide) (Or.inl rfl)
  exact h

/-! Claim C5. -/

/-- C5: a check-deps invocation with both packages importable prints
exactly the status-ok object, whose rendered text is exactly the
serialized form of that object, exits with status 0, and performs
only the dependency check: neither the file-existence check nor the
analyzer is ever reached. -/
theorem check_deps_ok_exits_zero (args : Args) (w : World)
    (hc : args.checkDeps = true)
    (hd : missingPackages w = []) :
    run args w =
      { stdout := [.json (.obj [("status", .str "ok")])],
        exitCode := 0,
        events := [.depCheck] } ∧
    ((run args w).stdout.map renderedLine) = ["\x7b\"status\": \"ok\"\x7d"] := by
  have h1 : run args w =
      { stdout := [.json (.obj [("status", .str "ok")])],
        exitCode := 0,
        events := [.depCheck] } := by
    simp [run, hc, hd]
  refine ⟨h1, ?_⟩
  rw [h1]
  rfl

/-- Witness for C5: the check-deps invocation in the fully working
environment prints the status-ok object and exits 0. -/
theorem check_deps_ok_exits_zero_witness :
    run argsCheckOnly wOk =
      { stdout := [.json (.obj [("status", .str "ok")])],
        exitCode := 0,
        events := [.depCheck] } ∧
    ((run argsCheckOnly wOk).stdout.map renderedLine) =
      ["\x7b\"status\": \"ok\"\x7d"] :=
  check_deps_ok_exits_zero argsCheckOnly wOk rfl rfl

/-! Claim C6. -/

/-- C6: on an invocation that reaches the generation call, the trace of
external calls shows exactly one generation call, whose prompt argument
is the supplied custom prompt when one is given and the built-in default
prompt otherwise: a custom prompt is forwarded literally, and the
default is used exactly when no custom prompt is supplied. -/
theorem prompt_forwarded_literally (args : Args) (w : World)
    (hc : args.checkDeps = false)
    (hf : w.fileExists args.image = true)
    (hd : missingPackages w = [])
    (hl : w.load modelId = .ok ())
    (ho : w.openImage args.image = .ok ()) :
    (run args w).events =
      [.fileCheck, .depCheck, .loadModel modelId, .openImage args.image,
       .genCall (args.prompt.getD defaultPrompt) args.maxTokens] ∧
    (∀ p, args.prompt = some p → args.prompt.getD defaultPrompt = p) ∧
    (args.prompt = none → args.prompt.getD defaultPrompt = defaultPrompt) := by
  refine ⟨?_, ?_, ?_⟩
  · cases hg : w.generate (args.prompt.getD defaultPrompt) args.maxTokens <;>
      simp [run, analyzeImage, hc, hf, hd, hl, ho, hg]
  · intro p hp
    rw [hp]
    rfl
  · intro hp
    rw [hp]
    rfl

/-- An invocation of shot.png supplying the custom prompt X. -/
def argsPromptX : Args :=
  { image := "shot.png", prompt := some "X", maxTokens := 2048,
    checkDeps := false, jsonMode := false }

/-- Witness for C6: in the fully working environment, the invocation
supplying the custom prompt X performs the generation call with the
literal prompt X. -/
theorem prompt_forwarded_literally_witness :
    (run argsPromptX wOk).events =
      [.fileCheck, .depCheck, .loadModel modelId, .openImage "shot.png",
       .genCall "X" 2048] :=
  (prompt_forwarded_literally argsPromptX wOk rfl rfl rfl rfl rfl).1

/-! Claim C7. -/

/-- C7: for any environment in which shot.png exists, both packages are
importable and model load and image open succeed, the command line that
omits the max-tokens option makes the generation call with the cap 2048,
and the command line supplying max-tokens 10 makes it with the cap 10
(both with the default prompt, since none is supplied). -/
theorem max_tokens_default_and_explicit (w : World)
    (hf : w.fileExists "shot.png" = true)
    (hd : missingPackages w = [])
    (hl : w.load modelId = .ok ())
    (ho : w.openImage "shot.png" = .ok ()) :
    (mainRun ["--image", "shot.png"] w).events =
      [.fileCheck, .depCheck, .loadModel modelId, .openImage "shot.png",
       .genCall defaultPrompt 2048] ∧
    (mainRun ["--image", "shot.png", "--max-tokens", "10"] w).events =
      [.fileCheck, .depCheck, .loadModel modelId, .openImage "shot.png",
       .genCall defaultPrompt 10] := by
  have hp1 : parseArgs ["--image", "shot.png"] =
      .ok { image := "shot.png", prompt := none, maxTokens := 2048,
            checkDeps := false, jsonMode := false } := rfl
  have hp2 : parseArgs ["--image", "shot.png", "--max-tokens", "10"] =
      .ok { image := "shot.png", prompt := none, maxTokens := 10,
            checkDeps := false, jsonMode := false } := rfl
  constructor
  · rw [show mainRun ["--image", "shot.png"] w =
        run { image := "shot.png", prompt := none, maxTokens := 2048,
              checkDeps := false, jsonMode := false } w from by
          unfold mainRun
          rw [hp1]]
    cases hg : w.generate defaultPrompt 2048 <;>
      simp [run, analyzeImage, hf, hd, hl, ho, hg]
  · rw [show mainRun ["--image", "shot.png", "--max-tokens", "10"] w =
        run { image := "shot.png", prompt := none, maxTokens := 10,
              checkDeps := false, jsonMode := false } w from by
          unfold mainRun
          rw [hp2]]
    cases hg : w.generate defaultPrompt 10 <;>
      simp [run, analyzeImage, hf, hd, hl, ho, hg]

/-- Witness for C7: in the fully working environment the two command
lines make the generation call with caps 2048 and 10 respectively. -/
theorem max_tokens_default_and_explicit_witness :
    (mainRun ["--image", "shot.png"] wOk).events =
      [.fileCheck, .depCheck, .loadModel modelId, .openImage "shot.png",
       .genCall defaultPrompt 2048] ∧
    (mainRun ["--image", "shot.png", "--max-tokens", "10"] wOk).events =
      [.fileCheck, .depCheck, .loadModel modelId, .openImage "shot.png",
       .genCall defaultPrompt 10] :=
  max_tokens_default_and_explicit wOk rfl rfl rfl rfl

/-! Claim C8. -/

/-- C8: every parsed invocation, on every control-flow path of the
script body (check-deps success or failure, missing file, analyzer
success or embedded error, plain or JSON mode) writes exactly one
printable value to standard output. -/
theorem exactly_one_output (args : Args) (w : World) :
    (run args w).stdout.length = 1 := by
  cases hc : args.checkDeps
  · cases hf : w.fileExists args.image
    · simp [run, hc, hf]
    · by_cases hd : missingPackages w = []
      · simp [run, hc, hf, hd]
      · simp [run, hc, hf, hd]
  · by_cases hd : missingPackages w = []
    · simp [run, hc, hd]
    · simp [run, hc, hd]

/-! Claim C10. -/

/-- C10: a check-deps invocation with both packages importable prints
the status-ok object and exits 0 even when the supplied image path does
not exist: the trace shows only the dependency check, so the
file-existence check is skipped entirely and no file_not_found object
can be produced. -/
theorem check_deps_skips_file_check (args : Args) (w : World)
    (hc : args.checkDeps = true)
    (hd : missingPackages w = [])
    (_hf : w.fileExists args.image = false) :
    run args w =
      { stdout := [.json (.obj [("status", .str "ok")])],
        exitCode := 0,
        events := [.depCheck] } := by
  simp [run, hc, hd]

/-- A check-deps invocation naming a nonexistent image path. -/
def argsCheckMissing : Args :=
  { image := "missing.png", prompt := none, maxTokens := 2048,
    checkDeps := true, jsonMode := false }

/-- Witness for C10: with both packages importable and no file present,
the check-deps invocation naming missing.png still prints the status-ok
object and exits 0. -/
theorem check_deps_skips_file_check_witness :
    run argsCheckMissing wNoFile =
      { stdout := [.json (.obj [("status", .str "ok")])],
        exitCode := 0,
        events := [.depCheck] } :=
  check_deps_skips_file_check argsCheckMissing wNoFile rfl rfl rfl

/-! Claim C9. -/

/-- Scanning a command line containing neither the long nor the short
image option can never set the image field: the scan either rejects the
command line or ends with the image field still unset. -/
theorem parseTokens_image_stays_none :
    ∀ (n : Nat) (ts : List String) (acc : ArgsAcc), ts.length ≤ n →
      "--image" ∉ ts → "-i" ∉ ts → acc.image = none →
      (∃ e, parseTokens acc ts = .error e) ∨
      (∃ acc2, parseTokens acc ts = .ok acc2 ∧ acc2.image = none) := by
  intro n
  induction n with
  | zero =>
    intro ts acc hlen h1 h2 h0
    cases ts with
    | nil => exact .inr ⟨acc, rfl, h0⟩
    | cons a rest =>
      simp [List.length_cons] at hlen
  | succ n ih =>
    intro ts acc hlen h1 h2 h0
    cases ts with
    | nil => exact .inr ⟨acc, rfl, h0⟩
    | cons a rest =>
      have hlenr : rest.length ≤ n := by
        simp [List.length_cons] at hlen
        omega
      have h1r : "--image" ∉ rest := fun hx => h1 (List.mem_cons_of_mem _ hx)
      have h2r : "-i" ∉ rest := fun hx => h2 (List.mem_cons_of_mem _ hx)
      have hna : ¬ (a = "--image" ∨ a = "-i") := by
        rintro (rfl | rfl)
        · exact h1 (List.mem_cons_self _ _)
        · exact h2 (List.mem_cons_self _ _)
      rw [parseTokens.eq_def]
      dsimp only
      rw [if_neg hna]
      by_cases hp : a = "--prompt" ∨ a = "-p"
      · rw [if_pos hp]
        cases rest with
        | nil => exact .inl ⟨_, rfl⟩
        | cons v rest2 =>
          have hlen2 : rest2.length ≤ n := by
            simp [List.length_cons] at hlen
            omega
          exact ih rest2 { acc with prompt := some v } hlen2
            (fun hx => h1r (List.mem_cons_of_mem _ hx))
            (fun hx => h2r (List.mem_cons_of_mem _ hx)) h0
      · rw [if_neg hp]
        by_cases hmt : a = "--max-tokens" ∨ a = "-t"
        · rw [if_pos hmt]
          cases rest with
          | nil => exact .inl ⟨_, rfl⟩
          | cons v rest2 =>
            have hlen2 : rest2.length ≤ n := by
              simp [List.length_cons] at hlen
              omega
            cases hv : strToInt? v with
            | none =>
              simp only [hv]
              exact .inl ⟨_, rfl⟩
            | some k =>
              simp only [hv]
              exact ih rest2 { acc with maxTokens := k } hlen2
                (fun hx => h1r (List.mem_cons_of_mem _ hx))
                (fun hx => h2r (List.mem_cons_of_mem _ hx)) h0
        · rw [if_neg hmt]
          by_cases hcd : a = "--check-deps"
          · rw [if_pos hcd]
            exact ih rest { acc with checkDeps := true } hlenr h1r h2r h0
          · rw [if_neg hcd]
            by_cases hj : a = "--json"
            · rw [if_pos hj]
              exact ih rest { acc with jsonMode := true } hlenr h1r h2r h0
            · rw [if_neg hj]
              exact .inl ⟨_, rfl⟩

/-- A command line with neither form of the image option is rejected by
argument parsing. -/
theorem parseArgs_no_image (argv : List String)
    (h1 : "--image" ∉ argv) (h2 : "-i" ∉ argv) :
    ∃ e, parseArgs argv = .error e := by
  have h := parseTokens_image_stays_none argv.length argv initAcc le_rfl h1 h2 rfl
  unfold parseArgs
  rcases h with ⟨e, he⟩ | ⟨acc2, he, h0⟩
  · refine ⟨e, ?_⟩
    rw [he]
  · refine ⟨.missingRequired, ?_⟩
    simp [he, h0]

/-- C9: an invocation passing the check-deps flag but no image option
(in either its long or short form) is rejected by argument parsing with
exit status 2 before anything runs: nothing is printed to standard
output, no event occurs, so the dependency check is never reached and
the status-ok object is never printed. -/
theorem check_deps_still_requires_image (argv : List String) (w : World)
    (_hcd : "--check-deps" ∈ argv)
    (h1 : "--image" ∉ argv) (h2 : "-i" ∉ argv) :
    mainRun argv w = { stdout := [], exitCode := 2, events := [] } := by
  obtain ⟨e, he⟩ := parseArgs_no_image argv h1 h2
  unfold mainRun
  rw [he]

/-- Witness for C9: the bare check-deps invocation, even in the fully
working environment, prints nothing to standard output and exits 2. -/
theorem check_deps_still_requires_image_witness :
    mainRun ["--check-deps"] wOk = { stdout := [], exitCode := 2, events := [] } :=
  check_deps_still_requires_image ["--check-deps"] wOk (by simp) (by simp) (by simp)

end DeepseekOcr
